import Mathlib

/-!
# Verification of the DCC baseline packet encoder

A shallow embedding of the `dcc-rs` packet framing engine
(`src/packets/mod.rs`) and the baseline packet family
(`src/packets/baseline.rs`), together with proofs of the specified
properties.

Bytes are modelled as `Nat` (with `< 256` hypotheses where relevant),
the bit buffer (`SerializeBuffer`, a 52-bit `BitArr` in `Msb0` order)
as a `List Bool` of length 52, and the in-place mutation of the Rust
code as explicit state passing: functions that mutate the buffer or
the builder return the new value alongside the `Result`.
-/

namespace DCC

/-- The error enum of the crate (the variants used by this module). -/
inductive Error where
  | TooLong
  | InvalidAddress
  | InvalidSpeed
deriving DecidableEq, Repr

deriving instance DecidableEq for Except

/-- `Direction` from `baseline.rs`: Forward or Backward, default Forward. -/
inductive Direction where
  | Forward
  | Backward
deriving DecidableEq, Repr

/-- `impl Not for Direction`: logical inversion Forward↔Backward. -/
def Direction.not : Direction → Direction
  | .Forward => .Backward
  | .Backward => .Forward

/-- `MAX_BITS = 15 + 4 * 9 + 1` from `mod.rs`: capacity of the buffer. -/
def MAX_BITS : Nat := 15 + 4 * 9 + 1

/-- The 8 bits of a byte, most-significant-bit first: the embedding of
`[byte].view_bits::<Msb0>()`. -/
def byteBits (b : Nat) : List Bool :=
  [b.testBit 7, b.testBit 6, b.testBit 5, b.testBit 4,
   b.testBit 3, b.testBit 2, b.testBit 1, b.testBit 0]

/-- The 16 preamble bits written by `serialize`:
`[0xff, 0xfe].view_bits::<Msb0>()`. -/
def preambleBits : List Bool := byteBits 0xff ++ byteBits 0xfe

/-- Copy `bits` into `buf` starting at index `pos`: the embedding of
`buf[pos..pos + bits.len()].copy_from_bitslice(bits)` (and of single
`buf.set` calls, as a one-element copy). -/
def writeRange (buf : List Bool) (pos : Nat) (bits : List Bool) : List Bool :=
  match bits with
  | [] => buf
  | b :: rest => writeRange (buf.set pos b) (pos + 1) rest

/-- The per-byte loop of `Packet::serialize`: for each payload byte,
set a `false` start bit at `pos`, write the byte MSB-first at
`pos+1 .. pos+9`, and advance the cursor by 9. Returns the final
buffer and cursor. -/
def serializeLoop (data : List Nat) (buf : List Bool) (pos : Nat) :
    List Bool × Nat :=
  match data with
  | [] => (buf, pos)
  | byte :: rest =>
      serializeLoop rest (writeRange (buf.set pos false) (pos + 1) (byteBits byte)) (pos + 9)

/-- `Packet::serialize` from `mod.rs`: the shared framing engine.
Checks `required_bits = 15 + data.len() * 9 + 1` against `MAX_BITS`,
writes the 16 preamble bits, frames each payload byte with a 0 start
bit, writes a 1 stop bit, and returns the total bit count. The buffer
(mutated in place in Rust) is returned as the second component; on
error it is returned unchanged. -/
def Packet.serialize (data : List Nat) (buf : List Bool) : Except Error Nat × List Bool :=
  let required_bits := 15 + data.length * 9 + 1
  if required_bits > MAX_BITS then
    (Except.error Error.TooLong, buf)
  else
    let buf1 := writeRange buf 0 preambleBits
    let r := serializeLoop data buf1 15
    (Except.ok (r.2 + 1), r.1.set r.2 true)

/-- `SpeedAndDirection`: address plus precomputed instruction byte. -/
structure SpeedAndDirection where
  address : Nat
  instruction : Nat
deriving DecidableEq, Repr

/-- The payload that `SpeedAndDirection::serialize` passes to the
framing engine: `[address, instruction, address ^ instruction]`. -/
def SpeedAndDirection.payload (p : SpeedAndDirection) : List Nat :=
  [p.address, p.instruction, Nat.xor p.address p.instruction]

/-- `SpeedAndDirection::serialize`: delegates to the framing engine
with payload `[address, instruction, address XOR instruction]`. -/
def SpeedAndDirection.serialize (p : SpeedAndDirection) (buf : List Bool) :
    Except Error Nat × List Bool :=
  Packet.serialize p.payload buf

/-- `SpeedAndDirectionBuilder`: optional address, speed and direction,
plus the e-stop flag (`#[derive(Default)]` gives `none`/`false`). -/
structure SpeedAndDirectionBuilder where
  address : Option Nat
  speed : Option Nat
  e_stop : Bool
  direction : Option Direction
deriving DecidableEq, Repr

/-- The `Default` instance of the builder: everything unset. -/
def SpeedAndDirectionBuilder.default : SpeedAndDirectionBuilder :=
  ⟨none, none, false, none⟩

/-- Builder setter `address`: rejects 0 and values above `0x7f` with
`InvalidAddress`, otherwise stores the address. Returns the result
together with the (possibly unchanged) builder state. -/
def SpeedAndDirectionBuilder.setAddress (b : SpeedAndDirectionBuilder)
    (address : Nat) : Except Error Unit × SpeedAndDirectionBuilder :=
  if address = 0 ∨ address > 0x7f then
    (Except.error Error.InvalidAddress, b)
  else
    (Except.ok (), { b with address := some address })

/-- Builder setter `speed`: rejects values above 28 with
`InvalidSpeed`, otherwise stores the speed. -/
def SpeedAndDirectionBuilder.setSpeed (b : SpeedAndDirectionBuilder)
    (speed : Nat) : Except Error Unit × SpeedAndDirectionBuilder :=
  if speed > 28 then
    (Except.error Error.InvalidSpeed, b)
  else
    (Except.ok (), { b with speed := some speed })

/-- Builder setter `direction`: stores unconditionally. -/
def SpeedAndDirectionBuilder.setDirection (b : SpeedAndDirectionBuilder)
    (direction : Direction) : SpeedAndDirectionBuilder :=
  { b with direction := some direction }

/-- Builder setter `e_stop`: stores unconditionally. -/
def SpeedAndDirectionBuilder.setEStop (b : SpeedAndDirectionBuilder)
    (e_stop : Bool) : SpeedAndDirectionBuilder :=
  { b with e_stop := e_stop }

/-- `SpeedAndDirectionBuilder::build`: applies defaults (address 3,
speed 0, direction Forward), remaps the speed (`0/None ↦ 0`,
`s ↦ s + 3` otherwise), and assembles the instruction byte
`01 D SSSSS` with e-stop overriding the speed bits. -/
def SpeedAndDirectionBuilder.build (b : SpeedAndDirectionBuilder) :
    SpeedAndDirection :=
  let address := b.address.getD 3
  let speed : Nat :=
    match b.speed with
    | some 0 | none => 0
    | some s => s + 3
  let instruction : Nat := 0x40
  let instruction :=
    match b.direction.getD Direction.Forward with
    | Direction.Forward => instruction ||| 0x20
    | Direction.Backward => instruction
  let instruction :=
    if b.e_stop then
      instruction ||| 0x01
    else
      (instruction ||| ((speed >>> 1) &&& 0x0f)) ||| ((speed &&& 0x01) <<< 4)
  { address := address, instruction := instruction }

/-- Modelled from the spec (§4.3): the remapped 5-bit speed field —
0 when the requested speed is 0 or unset, `speed + 3` otherwise.
Used to state claims about the instruction-byte layout. -/
def specSpeedField (speed : Option Nat) : Nat :=
  match speed with
  | some 0 | none => 0
  | some s => s + 3

/-- `Reset::serialize`: payload `[0x00, 0x00, 0x00]`. -/
def Reset.serialize (buf : List Bool) : Except Error Nat × List Bool :=
  Packet.serialize [0x00, 0x00, 0x00] buf

/-- `Idle::serialize`: payload `[0xff, 0x00, 0xff]`. -/
def Idle.serialize (buf : List Bool) : Except Error Nat × List Bool :=
  Packet.serialize [0xff, 0x00, 0xff] buf

/-- `BroadcastStop`: carries the float-vs-immediate flag. -/
structure BroadcastStop where
  float : Bool
deriving DecidableEq, Repr

/-- `BroadcastStop::immediate()`. -/
def BroadcastStop.immediate : BroadcastStop := ⟨false⟩

/-- `BroadcastStop::float()` (named `floating` here since the field is
called `float`). -/
def BroadcastStop.floating : BroadcastStop := ⟨true⟩

/-- `BroadcastStop::serialize`: instruction `0x50` for float,
`0x40` for immediate; payload `[0x00, instr, instr]`. -/
def BroadcastStop.serialize (p : BroadcastStop) (buf : List Bool) :
    Except Error Nat × List Bool :=
  let instr : Nat := if p.float then 0x50 else 0x40
  Packet.serialize [0x00, instr, instr] buf

/-! ## Helper lemmas about the framing primitives -/

theorem byteBits_length (b : Nat) : (byteBits b).length = 8 := rfl

theorem byteBits_getElem (b : Nat) (j : Nat) (hj : j < 8) :
    (byteBits b)[j]? = some (b.testBit (7 - j)) := by
  interval_cases j <;> rfl

theorem preambleBits_length : preambleBits.length = 16 := rfl

theorem preambleBits_getElem_lt (i : Nat) (hi : i < 15) :
    preambleBits[i]? = some true := by
  interval_cases i <;> decide

theorem preambleBits_getElem_15 : preambleBits[15]? = some false := by decide

theorem writeRange_length (bits : List Bool) : ∀ (buf : List Bool) (pos : Nat),
    (writeRange buf pos bits).length = buf.length := by
  induction bits with
  | nil => intro buf pos; rfl
  | cons b rest ih =>
      intro buf pos
      rw [writeRange, ih, List.length_set]

theorem writeRange_getElem_lt (bits : List Bool) : ∀ (buf : List Bool) (pos i : Nat),
    i < pos → (writeRange buf pos bits)[i]? = buf[i]? := by
  induction bits with
  | nil => intro buf pos i _; rfl
  | cons b rest ih =>
      intro buf pos i hi
      rw [writeRange, ih (buf.set pos b) (pos + 1) i (by omega),
        List.getElem?_set_ne (by omega)]

theorem writeRange_getElem_in (bits : List Bool) : ∀ (buf : List Bool) (pos j : Nat),
    j < bits.length → pos + bits.length ≤ buf.length →
    (writeRange buf pos bits)[pos + j]? = bits[j]? := by
  induction bits with
  | nil => intro buf pos j hj _; simp at hj
  | cons b rest ih =>
      intro buf pos j hj hfit
      simp only [List.length_cons] at hj hfit
      match j with
      | 0 =>
          rw [writeRange, writeRange_getElem_lt rest _ _ _ (by omega)]
          simpa using List.getElem?_set_self (l := buf) (a := b) (by omega)
      | j' + 1 =>
          have harith : pos + (j' + 1) = (pos + 1) + j' := by omega
          rw [writeRange, harith,
            ih (buf.set pos b) (pos + 1) j' (by omega) (by rw [List.length_set]; omega)]
          simp

/-! ## Helper lemmas about the serialize loop -/

theorem serializeLoop_length (data : List Nat) : ∀ (buf : List Bool) (pos : Nat),
    (serializeLoop data buf pos).1.length = buf.length := by
  induction data with
  | nil => intro buf pos; rfl
  | cons byte rest ih =>
      intro buf pos
      rw [serializeLoop, ih, writeRange_length, List.length_set]

theorem serializeLoop_pos (data : List Nat) : ∀ (buf : List Bool) (pos : Nat),
    (serializeLoop data buf pos).2 = pos + 9 * data.length := by
  induction data with
  | nil => intro buf pos; simp [serializeLoop]
  | cons byte rest ih =>
      intro buf pos
      rw [serializeLoop, ih, List.length_cons]
      omega

theorem serializeLoop_getElem_lt (data : List Nat) : ∀ (buf : List Bool) (pos i : Nat),
    i < pos → (serializeLoop data buf pos).1[i]? = buf[i]? := by
  induction data with
  | nil => intro _ _ _ _; rfl
  | cons byte rest ih =>
      intro buf pos i hi
      rw [serializeLoop, ih _ _ _ (by omega),
        writeRange_getElem_lt _ _ _ _ (by omega),
        List.getElem?_set_ne (by omega)]

theorem serializeLoop_start_bit (data : List Nat) : ∀ (buf : List Bool) (pos k : Nat),
    k < data.length → pos + 9 * data.length ≤ buf.length →
    (serializeLoop data buf pos).1[pos + 9 * k]? = some false := by
  induction data with
  | nil => intro buf pos k hk _; simp at hk
  | cons byte rest ih =>
      intro buf pos k hk hfit
      simp only [List.length_cons] at hk hfit
      match k with
      | 0 =>
          simp only [Nat.mul_zero, Nat.add_zero]
          rw [serializeLoop, serializeLoop_getElem_lt rest _ _ _ (by omega),
            writeRange_getElem_lt _ _ _ _ (by omega)]
          exact List.getElem?_set_self (by omega)
      | k' + 1 =>
          have harith : pos + 9 * (k' + 1) = (pos + 9) + 9 * k' := by omega
          rw [serializeLoop, harith,
            ih _ _ _ (by omega)
              (by rw [writeRange_length, List.length_set]; omega)]

theorem serializeLoop_data_bit (data : List Nat) : ∀ (buf : List Bool) (pos k j : Nat),
    k < data.length → j < 8 → pos + 9 * data.length ≤ buf.length →
    (serializeLoop data buf pos).1[pos + 9 * k + 1 + j]? =
      some ((data.getD k 0).testBit (7 - j)) := by
  induction data with
  | nil => intro buf pos k j hk _ _; simp at hk
  | cons byte rest ih =>
      intro buf pos k j hk hj hfit
      simp only [List.length_cons] at hk hfit
      match k with
      | 0 =>
          have harith : pos + 9 * 0 + 1 + j = (pos + 1) + j := by omega
          rw [serializeLoop, harith, serializeLoop_getElem_lt rest _ _ _ (by omega),
            writeRange_getElem_in _ _ _ _ (by rw [byteBits_length]; omega)
              (by rw [byteBits_length, List.length_set]; omega),
            byteBits_getElem _ _ hj]
          rfl
      | k' + 1 =>
          have harith : pos + 9 * (k' + 1) + 1 + j = (pos + 9) + 9 * k' + 1 + j := by omega
          rw [serializeLoop, harith,
            ih _ _ _ _ (by omega) hj
              (by rw [writeRange_length, List.length_set]; omega)]
          rfl

/-! ## Full characterization of a successful serialize call -/

theorem serialize_ok_bits (data : List Nat) (buf : List Bool)
    (hlen : data.length ≤ 4) (hbuf : buf.length = 52) :
    (Packet.serialize data buf).1 = Except.ok (15 + 9 * data.length + 1) ∧
    (Packet.serialize data buf).2.length = 52 ∧
    (∀ i, i < 15 → (Packet.serialize data buf).2[i]? = some true) ∧
    (∀ k, k < data.length → (Packet.serialize data buf).2[15 + 9 * k]? = some false) ∧
    (∀ k j, k < data.length → j < 8 →
      (Packet.serialize data buf).2[16 + 9 * k + j]? =
        some ((data.getD k 0).testBit (7 - j))) ∧
    (Packet.serialize data buf).2[15 + 9 * data.length]? = some true := by
  have hcond : ¬ (15 + data.length * 9 + 1 > MAX_BITS) := by
    simp only [MAX_BITS]; omega
  have hser : Packet.serialize data buf =
      (Except.ok ((serializeLoop data (writeRange buf 0 preambleBits) 15).2 + 1),
        (serializeLoop data (writeRange buf 0 preambleBits) 15).1.set
          (serializeLoop data (writeRange buf 0 preambleBits) 15).2 true) := by
    rw [Packet.serialize]
    simp only [hcond, if_false, if_neg hcond]
  have hw : (writeRange buf 0 preambleBits).length = 52 := by
    rw [writeRange_length, hbuf]
  have hfit : 15 + 9 * data.length ≤ (writeRange buf 0 preambleBits).length := by
    rw [hw]; omega
  have hp := serializeLoop_pos data (writeRange buf 0 preambleBits) 15
  have hl : (serializeLoop data (writeRange buf 0 preambleBits) 15).1.length = 52 := by
    rw [serializeLoop_length, hw]
  refine ⟨?_, ?_, ?_, ?_, ?_, ?_⟩
  · rw [hser]; simp only [hp]
  · rw [hser]; simp only [List.length_set, hl]
  · intro i hi
    rw [hser, hp]
    rw [List.getElem?_set_ne (by omega), serializeLoop_getElem_lt _ _ _ _ (by omega)]
    have h15 : (0 : Nat) + i = i := by omega
    rw [← h15, writeRange_getElem_in _ _ _ _ (by rw [preambleBits_length]; omega)
      (by rw [preambleBits_length]; omega), preambleBits_getElem_lt i hi]
  · intro k hk
    rw [hser, hp]
    rw [List.getElem?_set_ne (by omega),
      serializeLoop_start_bit _ _ _ _ hk hfit]
  · intro k j hk hj
    rw [hser, hp]
    have harith : 16 + 9 * k + j = 15 + 9 * k + 1 + j := by omega
    rw [List.getElem?_set_ne (by omega), harith,
      serializeLoop_data_bit _ _ _ _ _ hk hj hfit]
  · rw [hser, hp]
    exact List.getElem?_set_self (by rw [hl]; omega)

theorem serialize_eq_of_fits (data : List Nat) (buf : List Bool)
    (hlen : data.length ≤ 4) :
    Packet.serialize data buf =
      (Except.ok (15 + 9 * data.length + 1),
        (serializeLoop data (writeRange buf 0 preambleBits) 15).1.set
          (15 + 9 * data.length) true) := by
  have hcond : ¬ (15 + data.length * 9 + 1 > MAX_BITS) := by
    simp only [MAX_BITS]; omega
  rw [Packet.serialize]
  simp only [if_neg hcond, serializeLoop_pos]

theorem serialize_eq_of_too_long (data : List Nat) (buf : List Bool)
    (hlen : 5 ≤ data.length) :
    Packet.serialize data buf = (Except.error Error.TooLong, buf) := by
  have hcond : 15 + data.length * 9 + 1 > MAX_BITS := by
    simp only [MAX_BITS]; omega
  rw [Packet.serialize]
  simp only [if_pos hcond]

/-! ## Claims about the framing engine -/

/-- Claim C1: for every payload of 1 to 4 bytes, `serialize` writes the
wire format exactly: bits 0..14 are ones, bit 15 is a zero that doubles
as the first start bit, each payload byte `k` is framed as a 0 start bit
at position `15 + 9k` followed by its 8 bits MSB-first at positions
`16 + 9k .. 23 + 9k`, and a single 1 stop bit sits at `15 + 9·len`,
immediately after the last byte; the call returns `15 + 9·len + 1`. -/
theorem C1_serialize_wire_format (data : List Nat) (buf : List Bool)
    (hlen1 : 1 ≤ data.length) (hlen4 : data.length ≤ 4)
    (hbytes : ∀ b ∈ data, b < 256) (hbuf : buf.length = 52) :
    (Packet.serialize data buf).1 = Except.ok (15 + 9 * data.length + 1) ∧
    (∀ i, i < 15 → (Packet.serialize data buf).2[i]? = some true) ∧
    (Packet.serialize data buf).2[15]? = some false ∧
    (∀ k, k < data.length →
      (Packet.serialize data buf).2[15 + 9 * k]? = some false ∧
      ∀ j, j < 8 →
        (Packet.serialize data buf).2[16 + 9 * k + j]? =
          some ((data.getD k 0).testBit (7 - j))) ∧
    (Packet.serialize data buf).2[15 + 9 * data.length]? = some true := by
  obtain ⟨h1, _, h3, h4, h5, h6⟩ := serialize_ok_bits data buf hlen4 hbuf
  refine ⟨h1, h3, ?_, fun k hk => ⟨h4 k hk, fun j hj => h5 k j hk hj⟩, h6⟩
  have h0 := h4 0 hlen1
  simpa using h0

/-- Witness for C1 at the Reset payload `[0, 0, 0]` and an all-zero
52-bit buffer. -/
theorem C1_serialize_wire_format_witness :
    (Packet.serialize [0, 0, 0] (List.replicate 52 false)).1 = Except.ok 43 ∧
    (∀ i, i < 15 →
      (Packet.serialize [0, 0, 0] (List.replicate 52 false)).2[i]? = some true) ∧
    (Packet.serialize [0, 0, 0] (List.replicate 52 false)).2[15]? = some false ∧
    (∀ k, k < ([0, 0, 0] : List Nat).length →
      (Packet.serialize [0, 0, 0] (List.replicate 52 false)).2[15 + 9 * k]? = some false ∧
      ∀ j, j < 8 →
        (Packet.serialize [0, 0, 0] (List.replicate 52 false)).2[16 + 9 * k + j]? =
          some ((([0, 0, 0] : List Nat).getD k 0).testBit (7 - j))) ∧
    (Packet.serialize [0, 0, 0] (List.replicate 52 false)).2[42]? = some true :=
  C1_serialize_wire_format [0, 0, 0] (List.replicate 52 false)
    (by decide) (by decide) (by decide) (by simp)

/-- Claim C3: `serialize` fails with `TooLong` exactly when
`15 + 9·len + 1` exceeds the 52-bit capacity, i.e. exactly for payloads
of 5 or more bytes; for 4 or fewer it succeeds; and on failure the
buffer is returned completely unchanged. -/
theorem C3_too_long_boundary (data : List Nat) (buf : List Bool) :
    ((Packet.serialize data buf).1 = Except.error Error.TooLong ↔
      15 + 9 * data.length + 1 > 52) ∧
    (15 + 9 * data.length + 1 > 52 ↔ 5 ≤ data.length) ∧
    (data.length ≤ 4 →
      (Packet.serialize data buf).1 = Except.ok (15 + 9 * data.length + 1)) ∧
    (5 ≤ data.length → (Packet.serialize data buf).2 = buf) := by
  rcases Nat.lt_or_ge data.length 5 with h | h
  · have h4 : data.length ≤ 4 := by omega
    rw [serialize_eq_of_fits data buf h4]
    refine ⟨?_, by omega, fun _ => rfl, fun h5 => absurd h5 (by omega)⟩
    constructor
    · intro hcontra; exact absurd hcontra (by simp)
    · intro hgt; omega
  · rw [serialize_eq_of_too_long data buf h]
    refine ⟨?_, by omega, fun h4 => absurd h4 (by omega), fun _ => rfl⟩
    constructor
    · intro _; omega
    · intro _; rfl

/-- Witness for C3 at the five-byte payload `[1, 2, 3, 4, 5]` on the
all-zero 52-bit buffer. -/
theorem C3_too_long_boundary_witness :
    ((Packet.serialize [1, 2, 3, 4, 5] (List.replicate 52 false)).1 =
        Except.error Error.TooLong ↔
      15 + 9 * ([1, 2, 3, 4, 5] : List Nat).length + 1 > 52) ∧
    (15 + 9 * ([1, 2, 3, 4, 5] : List Nat).length + 1 > 52 ↔
      5 ≤ ([1, 2, 3, 4, 5] : List Nat).length) ∧
    (([1, 2, 3, 4, 5] : List Nat).length ≤ 4 →
      (Packet.serialize [1, 2, 3, 4, 5] (List.replicate 52 false)).1 =
        Except.ok (15 + 9 * ([1, 2, 3, 4, 5] : List Nat).length + 1)) ∧
    (5 ≤ ([1, 2, 3, 4, 5] : List Nat).length →
      (Packet.serialize [1, 2, 3, 4, 5] (List.replicate 52 false)).2 =
        List.replicate 52 false) :=
  C3_too_long_boundary [1, 2, 3, 4, 5] (List.replicate 52 false)

/-- Claim C10: a zero-byte payload is not rejected even though the
contract says 1 to 4 bytes: `serialize []` succeeds returning 16, and
the stop bit written at position 15 overwrites the preamble's trailing
zero, leaving the first 16 bits of the buffer all ones. -/
theorem C10_empty_payload (buf : List Bool) (hbuf : buf.length = 52) :
    (Packet.serialize [] buf).1 = Except.ok 16 ∧
    ∀ i, i < 16 → (Packet.serialize [] buf).2[i]? = some true := by
  obtain ⟨h1, _, h3, _, _, h6⟩ := serialize_ok_bits [] buf (by simp) hbuf
  refine ⟨by simpa using h1, fun i hi => ?_⟩
  rcases Nat.lt_or_ge i 15 with hlt | hge
  · exact h3 i hlt
  · have hi15 : i = 15 := by omega
    subst hi15
    simpa using h6

/-- Witness for C10 on the all-zero 52-bit buffer. -/
theorem C10_empty_payload_witness :
    (Packet.serialize [] (List.replicate 52 false)).1 = Except.ok 16 ∧
    ∀ i, i < 16 →
      (Packet.serialize [] (List.replicate 52 false)).2[i]? = some true :=
  C10_empty_payload (List.replicate 52 false) (by simp)

/-! ## Claims about the builder -/

/-- Claim C4: `address(a)` fails with `InvalidAddress` unless
`1 ≤ a ≤ 127` and `speed(s)` fails with `InvalidSpeed` unless
`s ≤ 28`; on success each setter stores the value, and on failure the
builder state is left completely unchanged. -/
theorem C4_setter_validation (b : SpeedAndDirectionBuilder) (a s : Nat)
    (ha8 : a < 256) (hs8 : s < 256) :
    ((b.setAddress a).1 = Except.error Error.InvalidAddress ↔ ¬(1 ≤ a ∧ a ≤ 127)) ∧
    ((1 ≤ a ∧ a ≤ 127) → (b.setAddress a).2 = { b with address := some a }) ∧
    (¬(1 ≤ a ∧ a ≤ 127) → (b.setAddress a).2 = b) ∧
    ((b.setSpeed s).1 = Except.error Error.InvalidSpeed ↔ ¬(s ≤ 28)) ∧
    (s ≤ 28 → (b.setSpeed s).2 = { b with speed := some s }) ∧
    (¬(s ≤ 28) → (b.setSpeed s).2 = b) := by
  refine ⟨?_, fun hin => ?_, fun hout => ?_, ?_, fun hin => ?_, fun hout => ?_⟩
  · unfold SpeedAndDirectionBuilder.setAddress
    split
    next h => exact iff_of_true rfl (by omega)
    next h => exact iff_of_false (by simp) (by omega)
  · unfold SpeedAndDirectionBuilder.setAddress
    rw [if_neg (by omega : ¬(a = 0 ∨ a > 0x7f))]
  · unfold SpeedAndDirectionBuilder.setAddress
    rw [if_pos (by omega : a = 0 ∨ a > 0x7f)]
  · unfold SpeedAndDirectionBuilder.setSpeed
    split
    next h => exact iff_of_true rfl (by omega)
    next h => exact iff_of_false (by simp) (by omega)
  · unfold SpeedAndDirectionBuilder.setSpeed
    rw [if_neg (by omega : ¬(s > 28))]
  · unfold SpeedAndDirectionBuilder.setSpeed
    rw [if_pos (by omega : s > 28)]

/-- Witness for C4 at address 35, speed 14 on the empty builder. -/
theorem C4_setter_validation_witness :
    ((SpeedAndDirectionBuilder.default.setAddress 35).1 =
        Except.error Error.InvalidAddress ↔ ¬(1 ≤ 35 ∧ 35 ≤ 127)) ∧
    ((1 ≤ 35 ∧ 35 ≤ 127) →
      (SpeedAndDirectionBuilder.default.setAddress 35).2 =
        { SpeedAndDirectionBuilder.default with address := some 35 }) ∧
    (¬(1 ≤ 35 ∧ 35 ≤ 127) →
      (SpeedAndDirectionBuilder.default.setAddress 35).2 =
        SpeedAndDirectionBuilder.default) ∧
    ((SpeedAndDirectionBuilder.default.setSpeed 14).1 =
        Except.error Error.InvalidSpeed ↔ ¬(14 ≤ 28)) ∧
    ((14 : Nat) ≤ 28 →
      (SpeedAndDirectionBuilder.default.setSpeed 14).2 =
        { SpeedAndDirectionBuilder.default with speed := some 14 }) ∧
    (¬((14 : Nat) ≤ 28) →
      (SpeedAndDirectionBuilder.default.setSpeed 14).2 =
        SpeedAndDirectionBuilder.default) :=
  C4_setter_validation SpeedAndDirectionBuilder.default 35 14 (by decide) (by decide)

/-- Claim C2: for every builder state whose stored speed is in range,
`build` produces an instruction byte with bits 7-6 fixed to `01`, bit 5
set exactly when the (defaulted) direction is Forward, bit 4 holding
the LSB of the remapped speed field (0 for speed 0 or unset,
`speed + 3` otherwise) and bits 3-0 holding bits 4-1 of that field;
when e-stop is set, bits 3-0 are the fixed pattern `0001` and bit 4 is
left at 0, overriding any computed speed. -/
theorem C2_instruction_layout (b : SpeedAndDirectionBuilder)
    (hs : b.speed.getD 0 ≤ 28) :
    (b.build.instruction.testBit 7 = false) ∧
    (b.build.instruction.testBit 6 = true) ∧
    (b.build.instruction.testBit 5 =
      decide (b.direction.getD Direction.Forward = Direction.Forward)) ∧
    (b.e_stop = false →
      b.build.instruction.testBit 4 = (specSpeedField b.speed).testBit 0 ∧
      b.build.instruction &&& 0x0f = ((specSpeedField b.speed) >>> 1) &&& 0x0f) ∧
    (b.e_stop = true →
      b.build.instruction &&& 0x0f = 0x01 ∧
      b.build.instruction.testBit 4 = false) := by
  obtain ⟨addr, speed, estop, dir⟩ := b
  have hinstr : (SpeedAndDirectionBuilder.mk addr speed estop dir).build.instruction =
      (SpeedAndDirectionBuilder.mk none speed estop dir).build.instruction := rfl
  dsimp only at hs ⊢
  simp only [hinstr]
  clear hinstr addr
  cases estop
  all_goals rcases dir with _ | (_ | _)
  all_goals rcases speed with _ | sp
  all_goals try decide
  all_goals simp only [Option.getD_some] at hs
  all_goals interval_cases sp <;> decide

/-- Witness for C2 at address 35, speed 14, Forward, no e-stop. -/
theorem C2_instruction_layout_witness :
    ((SpeedAndDirectionBuilder.mk (some 35) (some 14) false
        (some Direction.Forward)).build.instruction.testBit 7 = false) ∧
    ((SpeedAndDirectionBuilder.mk (some 35) (some 14) false
        (some Direction.Forward)).build.instruction.testBit 6 = true) ∧
    ((SpeedAndDirectionBuilder.mk (some 35) (some 14) false
        (some Direction.Forward)).build.instruction.testBit 5 =
      decide ((SpeedAndDirectionBuilder.mk (some 35) (some 14) false
        (some Direction.Forward)).direction.getD Direction.Forward =
          Direction.Forward)) ∧
    ((SpeedAndDirectionBuilder.mk (some 35) (some 14) false
        (some Direction.Forward)).e_stop = false →
      ((SpeedAndDirectionBuilder.mk (some 35) (some 14) false
          (some Direction.Forward)).build.instruction.testBit 4 =
        (specSpeedField (some 14)).testBit 0) ∧
      ((SpeedAndDirectionBuilder.mk (some 35) (some 14) false
          (some Direction.Forward)).build.instruction &&& 0x0f =
        ((specSpeedField (some 14)) >>> 1) &&& 0x0f)) ∧
    ((SpeedAndDirectionBuilder.mk (some 35) (some 14) false
        (some Direction.Forward)).e_stop = true →
      ((SpeedAndDirectionBuilder.mk (some 35) (some 14) false
          (some Direction.Forward)).build.instruction &&& 0x0f = 0x01) ∧
      ((SpeedAndDirectionBuilder.mk (some 35) (some 14) false
          (some Direction.Forward)).build.instruction.testBit 4 = false)) :=
  C2_instruction_layout
    (SpeedAndDirectionBuilder.mk (some 35) (some 14) false (some Direction.Forward))
    (by decide)

/-- Claim C6: `build` never fails — it is a total function on builder
states — and substitutes the defaults address 3, speed 0, direction
Forward for any field never set (the e-stop flag already defaults to
false in the empty builder); on the fully-empty builder it yields
address 3 and instruction `0x60`. -/
theorem C6_build_total_defaults (b : SpeedAndDirectionBuilder) :
    b.build = SpeedAndDirectionBuilder.build
      { address := some (b.address.getD 3),
        speed := some (b.speed.getD 0),
        e_stop := b.e_stop,
        direction := some (b.direction.getD Direction.Forward) } ∧
    SpeedAndDirectionBuilder.default.e_stop = false ∧
    SpeedAndDirectionBuilder.default.build =
      { address := 3, instruction := 0x60 } := by
  refine ⟨?_, rfl, by decide⟩
  obtain ⟨addr, speed, estop, dir⟩ := b
  rcases addr with _ | a <;> rcases dir with _ | d <;>
    rcases speed with _ | (_ | sp) <;> rfl

/-! ## Claims about whole-packet serialization -/

/-- Claim C5: for every address in [1,127], speed in [0,28] and
direction, building a Speed-and-Direction packet stores the address,
and serializing it delegates the payload
`[address, instruction, address XOR instruction]` to the framing
engine, returns exactly 43 bits, and the third payload byte equals the
XOR of the first two. -/
theorem C5_build_serialize (a sp : Nat) (d : Direction)
    (ha1 : 1 ≤ a) (ha2 : a ≤ 127) (hsp : sp ≤ 28) (buf : List Bool) :
    (((SpeedAndDirectionBuilder.default.setAddress a).2.setSpeed sp).2.setDirection d).build.address = a ∧
    (((SpeedAndDirectionBuilder.default.setAddress a).2.setSpeed sp).2.setDirection d).build.serialize buf =
      Packet.serialize
        [(((SpeedAndDirectionBuilder.default.setAddress a).2.setSpeed sp).2.setDirection d).build.address,
         (((SpeedAndDirectionBuilder.default.setAddress a).2.setSpeed sp).2.setDirection d).build.instruction,
         Nat.xor
           (((SpeedAndDirectionBuilder.default.setAddress a).2.setSpeed sp).2.setDirection d).build.address
           (((SpeedAndDirectionBuilder.default.setAddress a).2.setSpeed sp).2.setDirection d).build.instruction]
        buf ∧
    ((((SpeedAndDirectionBuilder.default.setAddress a).2.setSpeed sp).2.setDirection d).build.serialize buf).1 =
      Except.ok 43 ∧
    (((SpeedAndDirectionBuilder.default.setAddress a).2.setSpeed sp).2.setDirection d).build.payload.getD 2 0 =
      Nat.xor
        ((((SpeedAndDirectionBuilder.default.setAddress a).2.setSpeed sp).2.setDirection d).build.payload.getD 0 0)
        ((((SpeedAndDirectionBuilder.default.setAddress a).2.setSpeed sp).2.setDirection d).build.payload.getD 1 0) := by
  set p := (((SpeedAndDirectionBuilder.default.setAddress a).2.setSpeed sp).2.setDirection d).build with hp
  refine ⟨?_, rfl, ?_, rfl⟩
  · rw [hp]
    unfold SpeedAndDirectionBuilder.setAddress SpeedAndDirectionBuilder.setSpeed
      SpeedAndDirectionBuilder.setDirection SpeedAndDirectionBuilder.build
    rw [if_neg (by omega : ¬(a = 0 ∨ a > 0x7f)), if_neg (by omega : ¬(sp > 28))]
    rfl
  · rw [SpeedAndDirection.serialize,
      serialize_eq_of_fits p.payload buf (by have h3 : p.payload.length = 3 := rfl; omega)]
    rfl

/-- Witness for C5 at address 35, speed 14, Forward, on the all-zero
52-bit buffer. -/
theorem C5_build_serialize_witness :
    (((SpeedAndDirectionBuilder.default.setAddress 35).2.setSpeed 14).2.setDirection Direction.Forward).build.address = 35 ∧
    (((SpeedAndDirectionBuilder.default.setAddress 35).2.setSpeed 14).2.setDirection Direction.Forward).build.serialize (List.replicate 52 false) =
      Packet.serialize
        [(((SpeedAndDirectionBuilder.default.setAddress 35).2.setSpeed 14).2.setDirection Direction.Forward).build.address,
         (((SpeedAndDirectionBuilder.default.setAddress 35).2.setSpeed 14).2.setDirection Direction.Forward).build.instruction,
         Nat.xor
           (((SpeedAndDirectionBuilder.default.setAddress 35).2.setSpeed 14).2.setDirection Direction.Forward).build.address
           (((SpeedAndDirectionBuilder.default.setAddress 35).2.setSpeed 14).2.setDirection Direction.Forward).build.instruction]
        (List.replicate 52 false) ∧
    ((((SpeedAndDirectionBuilder.default.setAddress 35).2.setSpeed 14).2.setDirection Direction.Forward).build.serialize (List.replicate 52 false)).1 =
      Except.ok 43 ∧
    (((SpeedAndDirectionBuilder.default.setAddress 35).2.setSpeed 14).2.setDirection Direction.Forward).build.payload.getD 2 0 =
      Nat.xor
        ((((SpeedAndDirectionBuilder.default.setAddress 35).2.setSpeed 14).2.setDirection Direction.Forward).build.payload.getD 0 0)
        ((((SpeedAndDirectionBuilder.default.setAddress 35).2.setSpeed 14).2.setDirection Direction.Forward).build.payload.getD 1 0) :=
  C5_build_serialize 35 14 Direction.Forward (by decide) (by decide) (by decide)
    (List.replicate 52 false)

/-- Claim C7: Reset serializes the payload `[0x00, 0x00, 0x00]`, Idle
`[0xFF, 0x00, 0xFF]`, BroadcastStop `[0x00, instr, instr]` with
`instr = 0x40` for the immediate variant and `0x50` for the float
variant; each returns 43 bits. -/
theorem C7_fixed_packets (buf : List Bool) :
    Reset.serialize buf = Packet.serialize [0x00, 0x00, 0x00] buf ∧
    (Reset.serialize buf).1 = Except.ok 43 ∧
    Idle.serialize buf = Packet.serialize [0xff, 0x00, 0xff] buf ∧
    (Idle.serialize buf).1 = Except.ok 43 ∧
    BroadcastStop.immediate.serialize buf = Packet.serialize [0x00, 0x40, 0x40] buf ∧
    (BroadcastStop.immediate.serialize buf).1 = Except.ok 43 ∧
    BroadcastStop.floating.serialize buf = Packet.serialize [0x00, 0x50, 0x50] buf ∧
    (BroadcastStop.floating.serialize buf).1 = Except.ok 43 := by
  refine ⟨rfl, ?_, rfl, ?_, rfl, ?_, rfl, ?_⟩
  · rw [show Reset.serialize buf = Packet.serialize [0x00, 0x00, 0x00] buf from rfl,
      serialize_eq_of_fits _ _ (by decide)]
    rfl
  · rw [show Idle.serialize buf = Packet.serialize [0xff, 0x00, 0xff] buf from rfl,
      serialize_eq_of_fits _ _ (by decide)]
    rfl
  · rw [show BroadcastStop.immediate.serialize buf =
        Packet.serialize [0x00, 0x40, 0x40] buf from rfl,
      serialize_eq_of_fits _ _ (by decide)]
    rfl
  · rw [show BroadcastStop.floating.serialize buf =
        Packet.serialize [0x00, 0x50, 0x50] buf from rfl,
      serialize_eq_of_fits _ _ (by decide)]
    rfl

/-- Claim C8 counterexample: for address 35, speed 14, Forward, no
e-stop, the checksum payload byte is not `0x4D`: in fact
`35 XOR 0x78 = 0x5B`. -/
theorem C8_checksum_counterexample :
    ¬ ((((SpeedAndDirectionBuilder.default.setAddress 35).2.setSpeed 14).2.setDirection
        Direction.Forward).build.payload.getD 2 0 = 0x4d) := by decide

/-- Claim C8 (amended): for address 35, speed 14, Forward, no e-stop,
the built instruction byte is `0x78`, the serialization is exactly 43
bits, and the checksum payload byte equals `35 XOR 0x78 = 0x5B`. -/
theorem C8_concrete_scenario :
    (((SpeedAndDirectionBuilder.default.setAddress 35).2.setSpeed 14).2.setDirection
        Direction.Forward).build.instruction = 0x78 ∧
    ((((SpeedAndDirectionBuilder.default.setAddress 35).2.setSpeed 14).2.setDirection
        Direction.Forward).build.serialize (List.replicate 52 false)).1 = Except.ok 43 ∧
    (((SpeedAndDirectionBuilder.default.setAddress 35).2.setSpeed 14).2.setDirection
        Direction.Forward).build.payload.getD 2 0 = Nat.xor 35 0x78 ∧
    Nat.xor 35 0x78 = 0x5b := by decide

/-- Claim C9 counterexample: a serialized packet does not begin with
16 one bits: for the Reset payload, bit 15 of the output buffer is the
first start bit, a zero. -/
theorem C9_preamble_counterexample :
    ¬ (∀ i, i < 16 →
      (Packet.serialize [0x00, 0x00, 0x00] (List.replicate 52 false)).2[i]? = some true) :=
  fun h => absurd (h 15 (by omega)) (by decide)

/-- Claim C9 (amended): every serialized packet with a non-empty
payload begins with 15 one bits emitted as the preamble, followed
immediately by the first start bit (a zero) at position 15. -/
theorem C9_preamble_amended (data : List Nat) (buf : List Bool)
    (hlen1 : 1 ≤ data.length) (hlen4 : data.length ≤ 4) (hbuf : buf.length = 52) :
    (∀ i, i < 15 → (Packet.serialize data buf).2[i]? = some true) ∧
    (Packet.serialize data buf).2[15]? = some false := by
  obtain ⟨_, _, h3, h4, _, _⟩ := serialize_ok_bits data buf hlen4 hbuf
  refine ⟨h3, ?_⟩
  have h0 := h4 0 hlen1
  simpa using h0

/-- Witness for the amended C9 at the Idle payload on the all-zero
52-bit buffer. -/
theorem C9_preamble_amended_witness :
    (∀ i, i < 15 →
      (Packet.serialize [0xff, 0x00, 0xff] (List.replicate 52 false)).2[i]? = some true) ∧
    (Packet.serialize [0xff, 0x00, 0xff] (List.replicate 52 false)).2[15]? = some false :=
  C9_preamble_amended [0xff, 0x00, 0xff] (List.replicate 52 false)
    (by decide) (by decide) (by simp)

end DCC
